import Mathlib

/-!
Shallow embedding of the sentinelapi-trials raster pipeline
(src/config.py, src/cloud.py, src/compositing.py, src/soil.py,
src/analysis.py, src/main.py) and proofs about it.

Rasters are modelled per pixel: every Earth Engine image operation used by
the repository (updateMask, band arithmetic, reducers) acts pixel-wise, so a
pixel-level model captures the per-pixel claims exactly.  Rational numbers
stand for the floating-point band values.
-/

namespace SentinelAPI

namespace Config

/-- src/config.py line 37. -/
def CLOUD_PROBABILITY_THRESHOLD : ℚ := 40

/-- src/config.py line 57. -/
def COMPOSITE_METHOD : String := "median"

/-- src/config.py line 60. -/
def COMPOSITE_PERCENTILE : ℕ := 50

/-- src/config.py line 73. -/
def SOIL_INDICES : List String := ["NDSI", "BI", "CI", "NDMI", "BSI"]

end Config

/-- Python `x or default` on an optional numeric argument: both `None` and
`0` are falsy, so they select the default. -/
def pyOrQ (x : Option ℚ) (d : ℚ) : ℚ :=
  match x with
  | none => d
  | some v => if v = 0 then d else v

/-- Python `x or default` on an optional string: `None` and the empty string
are falsy. -/
def pyOrStr (x : Option String) (d : String) : String :=
  match x with
  | none => d
  | some v => if v = "" then d else v

/-- Python `x or default` on an optional natural number: `None` and `0` are
falsy. -/
def pyOrNat (x : Option ℕ) (d : ℕ) : ℕ :=
  match x with
  | none => d
  | some v => if v = 0 then d else v

namespace Cloud

/-- One pixel of a Sentinel-2 scene after the s2cloudless join: its current
mask bit, the joined `probability` band, the `SCL` class and the `B8` (NIR)
band — the bands read by the cloud-masking functions in src/cloud.py. -/
structure Pixel where
  valid : Bool
  prob : ℚ
  scl : ℤ
  nir : ℚ
deriving DecidableEq, Repr

/-- One pixel of a raw Sentinel-2 scene, before the probability band has
been joined. -/
structure RawPixel where
  valid : Bool
  scl : ℤ
  nir : ℚ
deriving DecidableEq, Repr

/-- A raw Sentinel-2 scene: its `system:index` and its pixels. -/
structure RawImage where
  idx : String
  pixels : List RawPixel
deriving DecidableEq, Repr

/-- An s2cloudless scene: its `system:index` and its `probability` band. -/
structure ProbImage where
  idx : String
  probs : List ℚ
deriving DecidableEq, Repr

/-- A Sentinel-2 scene carrying the joined probability band. -/
structure Image where
  idx : String
  pixels : List Pixel
deriving DecidableEq, Repr

/-- `image.addBands(cloud_prob)` (src/cloud.py lines 105-107): attach the
matching probability image's band pixel-wise. -/
def addProbBand (img : RawImage) (p : ProbImage) : Image :=
  { idx := img.idx
    pixels := (img.pixels.zip p.probs).map
      (fun q => { valid := q.1.valid, prob := q.2, scl := q.1.scl, nir := q.1.nir }) }

/-- `add_cloud_probability` (src/cloud.py lines 72-109): an inner join of the
two collections on `system:index` keeping, for each Sentinel-2 scene, the
first s2cloudless scene with the same index (`ee.Join.saveFirst`), then the
probability band is added to each joined scene. -/
def add_cloud_probability (s2 : List RawImage) (cl : List ProbImage) : List Image :=
  s2.filterMap (fun img => (cl.find? (fun c => c.idx == img.idx)).map (addProbBand img))

/-- `image.updateMask(m)`: the pixel stays valid iff it was valid and the
new mask holds there. -/
def updateMask (m : Pixel → Bool) (img : Image) : Image :=
  { img with pixels := img.pixels.map (fun p => { p with valid := p.valid && m p }) }

/-- `mask_s2_clouds_probability` (src/cloud.py lines 112-136): the threshold
defaults through Python `or` to `config.CLOUD_PROBABILITY_THRESHOLD`, and a
pixel passes iff its cloud probability is strictly below it. -/
def mask_s2_clouds_probability (threshold : Option ℚ) (img : Image) : Image :=
  let thresh := pyOrQ threshold Config.CLOUD_PROBABILITY_THRESHOLD
  updateMask (fun p => decide (p.prob < thresh)) img

/-- The per-pixel SCL validity predicate of `mask_s2_clouds_scl`
(src/cloud.py lines 62-67): the class is none of 3 (cloud shadow),
8 (cloud medium), 9 (cloud high), 10 (thin cirrus). -/
def sclClear (scl : ℤ) : Bool :=
  (scl != 3) && ((scl != 8) && ((scl != 9) && (scl != 10)))

/-- `mask_s2_clouds_scl` (src/cloud.py lines 40-69). -/
def mask_s2_clouds_scl (img : Image) : Image :=
  updateMask (fun p => sclClear p.scl) img

/-- `apply_comprehensive_cloud_mask` (src/cloud.py lines 199-242): resolve
the threshold, join the probability band, then mask every scene first by
probability and then by SCL.  The `mask_shadows` parameter is accepted and,
exactly as in the source, never read. -/
def apply_comprehensive_cloud_mask (s2 : List RawImage) (cl : List ProbImage)
    (cloud_threshold : Option ℚ) (mask_shadows : Bool) : List Image :=
  let thresh := pyOrQ cloud_threshold Config.CLOUD_PROBABILITY_THRESHOLD
  let collection_with_prob := add_cloud_probability s2 cl
  collection_with_prob.map
    (fun image => mask_s2_clouds_scl (mask_s2_clouds_probability (some thresh) image))

/-- A scene for shadow projection (src/cloud.py lines 139-196), modelled as
a one-dimensional row of pixels spaced 1 m apart along the shadow-projection
direction.  Only the tangent of `MEAN_SOLAR_ZENITH_ANGLE` is ever used by the
source (`ee.Number(mean_zenith).tan()`), so the scene carries that tangent
directly; the azimuth is carried as the raw `MEAN_SOLAR_AZIMUTH_ANGLE`. -/
structure ShadowScene where
  azimuth : ℚ
  tanZenith : ℚ
  pixels : List Pixel
deriving DecidableEq, Repr

/-- src/cloud.py line 173: `shadow_azimuth = 90 - mean_azimuth`. -/
def shadowAzimuth (sc : ShadowScene) : ℚ := 90 - sc.azimuth

/-- src/cloud.py lines 176-180: the shadow projection distance the source
computes — tan(zenith) times the assumed 1000 m cloud height, clipped to the
search distance.  The source computes this value into a local variable and
never uses it again. -/
def shadowDistance (sc : ShadowScene) (shadow_search_distance : ℚ) : ℚ :=
  min (sc.tanZenith * 1000) shadow_search_distance

/-- `directionalDistanceTransform(shadow_azimuth, d).select("distance").mask()`
modelled in one dimension: pixel `i` lies in the projected footprint iff some
cloud pixel occurs at most `d` pixels (metres) before it along the projection
direction. -/
def inProjectedFootprint (isCloud : ℕ → Bool) (d : ℕ) (i : ℕ) : Bool :=
  (List.range (d + 1)).any (fun k => decide (k ≤ i) && isCloud (i - k))

/-- Map a function of the pixel index and the pixel over a row of pixels,
the index starting at `i`. -/
def mapPixelsFrom (f : ℕ → Pixel → Pixel) (i : ℕ) : List Pixel → List Pixel
  | [] => []
  | p :: ps => f i p :: mapPixelsFrom f (i + 1) ps

/-- `mask_cloud_shadows` (src/cloud.py lines 139-196): cloud pixels are those
with probability strictly above `cloud_prob_threshold`; dark pixels have NIR
strictly below `nir_dark_threshold * 10000`; the cloud mask is projected with
`directionalDistanceTransform` out to `shadow_search_distance` (the clipped
`shadowDistance` value is computed by the source but not passed to the
transform); a pixel is shadow iff dark and inside the footprint, and the
final mask keeps exactly the pixels that are neither cloud nor shadow. -/
def mask_cloud_shadows (cloud_prob_threshold : ℚ) (nir_dark_threshold : ℚ)
    (shadow_search_distance : ℕ) (sc : ShadowScene) : List Pixel :=
  let isCloud : ℕ → Bool := fun i =>
    ((sc.pixels.get? i).map (fun p => decide (cloud_prob_threshold < p.prob))).getD false
  mapPixelsFrom
    (fun i p =>
      let is_cloud := decide (cloud_prob_threshold < p.prob)
      let dark := decide (p.nir < nir_dark_threshold * 10000)
      let projected := inProjectedFootprint isCloud shadow_search_distance i
      let is_shadow := dark && projected
      { p with valid := p.valid && (!is_cloud && !is_shadow) })
    0 sc.pixels

/-- A concrete shadow scene: a cloud at position 0 (probability 80), clear
sky elsewhere (probability 0), and a dark pixel (NIR 1000 < 1500) at
position 5.  With tan(zenith) = 1/500 the distance the source computes is
min(2, 10) = 2 m, yet the dark pixel sits 5 m from the cloud. -/
def shadowSceneA : ShadowScene :=
  { azimuth := 130
    tanZenith := 1 / 500
    pixels :=
      [ { valid := true, prob := 80, scl := 5, nir := 5000 }
      , { valid := true, prob := 0, scl := 5, nir := 5000 }
      , { valid := true, prob := 0, scl := 5, nir := 5000 }
      , { valid := true, prob := 0, scl := 5, nir := 5000 }
      , { valid := true, prob := 0, scl := 5, nir := 5000 }
      , { valid := true, prob := 0, scl := 5, nir := 1000 } ] }

/-- The cloud indicator of `shadowSceneA` under threshold 40. -/
def shadowSceneACloud : ℕ → Bool := fun i =>
  ((shadowSceneA.pixels.get? i).map (fun p => decide ((40 : ℚ) < p.prob))).getD false

/-- A concrete raw Sentinel-2 scene with two valid pixels. -/
def rawImageA : RawImage :=
  { idx := "20240101T153619_0"
    pixels :=
      [ { valid := true, scl := 5, nir := 2000 }
      , { valid := true, scl := 9, nir := 3000 } ] }

/-- The s2cloudless scene matching `rawImageA` by `system:index`. -/
def probImageA : ProbImage := { idx := "20240101T153619_0", probs := [10, 80] }

end Cloud

namespace Soil

/-- The reflectance bands of one composite pixel read by the index functions
of src/soil.py, via the `config.S2_BANDS` mapping: blue = B2, green = B3,
red = B4, nir = B8, swir1 = B11, swir2 = B12.  -/
structure Reflectance where
  blue : ℚ
  green : ℚ
  red : ℚ
  nir : ℚ
  swir1 : ℚ
  swir2 : ℚ
deriving DecidableEq, Repr

/-- `image.normalizedDifference([a, b])` at one pixel: (a − b) / (a + b). -/
def normalizedDifference (a b : ℚ) : ℚ := (a - b) / (a + b)

/-- `calculate_ndsi` (src/soil.py lines 12-32): normalizedDifference of
SWIR1 (B11) and NIR (B8). -/
def calculate_ndsi (p : Reflectance) : ℚ := normalizedDifference p.swir1 p.nir

/-- `calculate_bare_soil_index` (src/soil.py lines 35-59):
BI = ((SWIR1 + Red) − (NIR + Blue)) / ((SWIR1 + Red) + (NIR + Blue)). -/
def calculate_bare_soil_index (p : Reflectance) : ℚ :=
  (p.swir1 + p.red - p.nir - p.blue) / (p.swir1 + p.red + p.nir + p.blue)

/-- `calculate_bsi` (src/soil.py lines 62-86):
BSI = ((SWIR2 + Red) − (NIR + Blue)) / ((SWIR2 + Red) + (NIR + Blue)) · 100 + 100. -/
def calculate_bsi (p : Reflectance) : ℚ :=
  (p.swir2 + p.red - p.nir - p.blue) / (p.swir2 + p.red + p.nir + p.blue) * 100 + 100

/-- `calculate_color_index` (src/soil.py lines 89-109):
CI = (Red − Green) / (Red + Green). -/
def calculate_color_index (p : Reflectance) : ℚ :=
  (p.red - p.green) / (p.red + p.green)

/-- `calculate_ndmi` (src/soil.py lines 112-132): normalizedDifference of
NIR (B8) and SWIR1 (B11). -/
def calculate_ndmi (p : Reflectance) : ℚ := normalizedDifference p.nir p.swir1

/-- `calculate_ndvi` (src/soil.py lines 135-155): normalizedDifference of
NIR (B8) and Red (B4). -/
def calculate_ndvi (p : Reflectance) : ℚ := normalizedDifference p.nir p.red

/-- `calculate_saturation_index` (src/soil.py lines 158-178):
SSI = (Red − Green) / (Red + Green + Blue). -/
def calculate_saturation_index (p : Reflectance) : ℚ :=
  (p.red - p.green) / (p.red + p.green + p.blue)

/-- All six reflectance bands of a pixel lie in the nominal 0–10000 range. -/
def inReflectanceRange (p : Reflectance) : Prop :=
  0 ≤ p.blue ∧ p.blue ≤ 10000 ∧ 0 ≤ p.green ∧ p.green ≤ 10000 ∧
  0 ≤ p.red ∧ p.red ≤ 10000 ∧ 0 ≤ p.nir ∧ p.nir ≤ 10000 ∧
  0 ≤ p.swir1 ∧ p.swir1 ≤ 10000 ∧ 0 ≤ p.swir2 ∧ p.swir2 ≤ 10000

instance (p : Reflectance) : Decidable (inReflectanceRange p) := by
  unfold inReflectanceRange
  infer_instance

/-- `create_bare_soil_mask` (src/soil.py lines 333-366) at one pixel of a
composite whose NDVI and BSI bands are defined:
`ndvi.lt(ndvi_threshold).And(bsi.gt(bsi_threshold))`, both comparisons
strict. -/
def create_bare_soil_mask (ndvi bsi ndvi_threshold bsi_threshold : ℚ) : Bool :=
  decide (ndvi < ndvi_threshold) && decide (bsi_threshold < bsi)

/-- One entry of the statistics report of `get_soil_statistics`
(src/soil.py lines 406-411): the four reducer outputs, null when the
reduction had no valid pixels. -/
structure IndexStats where
  mean : Option ℚ
  min : Option ℚ
  max : Option ℚ
  stdDev : Option ℚ
deriving DecidableEq, Repr

/-- Sum of a list of rationals. -/
def qSum (xs : List ℚ) : ℚ := xs.foldr (· + ·) 0

/-- Minimum of a list of rationals, none on the empty list. -/
def qMin : List ℚ → Option ℚ
  | [] => none
  | x :: xs =>
    match qMin xs with
    | none => some x
    | some m => some (min x m)

/-- Maximum of a list of rationals, none on the empty list. -/
def qMax : List ℚ → Option ℚ
  | [] => none
  | x :: xs =>
    match qMax xs with
    | none => some x
    | some m => some (max x m)

/-- The `ee.Reducer.mean()` output over the valid pixel values of a band in
the region: null when there are none. -/
def reduceMean (xs : List ℚ) : Option ℚ :=
  if xs.length = 0 then none else some (qSum xs / xs.length)

/-- The `ee.Reducer.stdDev()` output, modelled by the population variance of
the valid pixel values (Earth Engine reports its square root, which is not
rational; taking the square root changes no nullity, and the statistics
claims only concern which entries are null). -/
def reduceStdDevSq (xs : List ℚ) : Option ℚ :=
  if xs.length = 0 then none
  else
    let m := qSum xs / xs.length
    some (qSum (xs.map (fun x => (x - m) ^ 2)) / xs.length)

/-- The combined mean/minMax/stdDev `reduceRegion` of src/soil.py lines
395-404, applied to the valid pixel values of one index band inside the
region of interest: every field is null exactly when the region holds no
valid pixel for the band. -/
def regionStats (xs : List ℚ) : IndexStats :=
  { mean := reduceMean xs
    min := qMin xs
    max := qMax xs
    stdDev := reduceStdDevSq xs }

/-- An image for zonal statistics: each band name maps to the list of its
valid pixel values inside the region of interest.  A band absent from the
image makes `select`/`reduceRegion`/`getInfo` on it raise, which the source
catches. -/
abbrev StatImage := List (String × List ℚ)

/-- `get_soil_statistics` (src/soil.py lines 369-415): one pass over the
requested index names; a name whose band reduction succeeds contributes an
entry built from the reducer outputs, and a name whose band is absent raises
inside the `try`, is logged by the `except` branch and contributes nothing
(the Python dict keyed by index name in insertion order is modelled as an
association list in the same order). -/
def get_soil_statistics (image : StatImage) (indices : List String) :
    List (String × IndexStats) :=
  indices.filterMap (fun index_name =>
    (List.lookup index_name image).map (fun vals => (index_name, regionStats vals)))

/-- A concrete statistics image holding an NDSI band with two valid pixels
and a BI band whose region holds no valid pixel; the CI band is absent. -/
def statImageA : StatImage := [("NDSI", [1/2, 1/4]), ("BI", [])]

/-- A concrete composite pixel with every reflectance band at 1000. -/
def reflA : Reflectance :=
  { blue := 1000, green := 1000, red := 1000, nir := 1000, swir1 := 1000, swir2 := 1000 }

end Soil

namespace Compositing

/-- One scene of a masked stack, at one pixel: each band name maps to the
scene's value there.  A band under which the pixel is masked out in that
scene is simply absent, matching how Earth Engine reducers skip masked
observations. -/
abbrev BandImage := List (String × ℚ)

/-- `collection.select(bands)` when a band list is given (src/compositing.py
lines 29-30 etc.), the identity otherwise. -/
def selectBands (bands : Option (List String)) (col : List BandImage) : List BandImage :=
  match bands with
  | none => col
  | some bs => col.map (fun img => img.filter (fun b => bs.contains b.1))

/-- The band names of a collection, read off its first scene (the stack
shares one band schema). -/
def bandNames (col : List BandImage) : List String :=
  match col with
  | [] => []
  | img :: _ => img.map Prod.fst

/-- The valid observations of one band at the pixel, across the stack. -/
def bandValues (col : List BandImage) (name : String) : List ℚ :=
  col.filterMap (fun img => List.lookup name img)

/-- Insert into a sorted list of rationals. -/
def insertSorted (x : ℚ) : List ℚ → List ℚ
  | [] => [x]
  | y :: ys => if x ≤ y then x :: y :: ys else y :: insertSorted x ys

/-- Insertion sort on rationals. -/
def sortQ (xs : List ℚ) : List ℚ := xs.foldr insertSorted []

/-- The exact median of a sorted list of observations: the middle element,
or the mean of the two middle elements for an even count; null with no
observations (the composite pixel stays masked). -/
def medianSorted (s : List ℚ) : Option ℚ :=
  if s.length = 0 then none
  else if s.length % 2 = 1 then some (s.getD (s.length / 2) 0)
  else some ((s.getD (s.length / 2 - 1) 0 + s.getD (s.length / 2) 0) / 2)

/-- The exact percentile of a sorted list of observations: linear
interpolation at rank p·(n−1)/100 between adjacent sorted values — the
exact (small-input) path of the Earth Engine percentile reducer; null with
no observations. -/
def quantileSorted (p : ℚ) (s : List ℚ) : Option ℚ :=
  if s.length = 0 then none
  else
    let h : ℚ := p * ((s.length : ℚ) - 1) / 100
    let i : ℕ := (⌊h⌋).toNat
    let lo := s.getD i 0
    let hi := s.getD (min (i + 1) (s.length - 1)) 0
    some (lo + (h - ⌊h⌋) * (hi - lo))

/-- `ee.Reducer.median` over the valid observations at a pixel. -/
def eeMedian (xs : List ℚ) : Option ℚ := medianSorted (sortQ xs)

/-- `ee.Reducer.percentile([p])` over the valid observations at a pixel. -/
def eeQuantile (p : ℚ) (xs : List ℚ) : Option ℚ := quantileSorted p (sortQ xs)

/-- `ee.Reducer.mean` over the valid observations at a pixel. -/
def eeMean (xs : List ℚ) : Option ℚ := Soil.reduceMean xs

/-- `create_median_composite` (src/compositing.py lines 12-35): optional
band selection, then `collection.median()` band by band. -/
def create_median_composite (collection : List BandImage)
    (bands : Option (List String)) : List (String × Option ℚ) :=
  let c := selectBands bands collection
  (bandNames c).map (fun n => (n, eeMedian (bandValues c n)))

/-- `create_mean_composite` (src/compositing.py lines 38-61). -/
def create_mean_composite (collection : List BandImage)
    (bands : Option (List String)) : List (String × Option ℚ) :=
  let c := selectBands bands collection
  (bandNames c).map (fun n => (n, eeMean (bandValues c n)))

/-- `create_min_composite` (src/compositing.py lines 101-126). -/
def create_min_composite (collection : List BandImage)
    (bands : Option (List String)) : List (String × Option ℚ) :=
  let c := selectBands bands collection
  (bandNames c).map (fun n => (n, Soil.qMin (bandValues c n)))

/-- `create_max_composite` (src/compositing.py lines 129-154). -/
def create_max_composite (collection : List BandImage)
    (bands : Option (List String)) : List (String × Option ℚ) :=
  let c := selectBands bands collection
  (bandNames c).map (fun n => (n, Soil.qMax (bandValues c n)))

/-- Does `pat` start the list `l`? -/
def startsWithChars : List Char → List Char → Bool
  | [], _ => true
  | _ :: _, [] => false
  | a :: as, b :: bs => a == b && startsWithChars as bs

/-- Does `pat` occur anywhere in `l`? -/
def containsChars (pat : List Char) : List Char → Bool
  | [] => startsWithChars pat []
  | c :: cs => startsWithChars pat (c :: cs) || containsChars pat cs

/-- Replace the first occurrence of `pat` by `rep`, on character lists. -/
def replaceFirstChars (pat rep : List Char) : List Char → List Char
  | [] => []
  | c :: cs =>
    if startsWithChars pat (c :: cs) then rep ++ (c :: cs).drop pat.length
    else c :: replaceFirstChars pat rep cs

/-- `ee.String(s).replace(pat, rep)`: replace the first occurrence of the
pattern (no global flag is passed in src/compositing.py line 94). -/
def replaceFirst (s pat rep : String) : String :=
  ⟨replaceFirstChars pat.data rep.data s.data⟩

/-- `create_percentile_composite` (src/compositing.py lines 64-98): optional
band selection, `collection.reduce(ee.Reducer.percentile([percentile]))` —
whose output bands carry a `_pXX` suffix — then a rename stripping the
`_pXX` suffix from every band name. -/
def create_percentile_composite (collection : List BandImage) (percentile : ℕ)
    (bands : Option (List String)) : List (String × Option ℚ) :=
  let c := selectBands bands collection
  let reduced := (bandNames c).map
    (fun n => (n ++ "_p" ++ toString percentile, eeQuantile (percentile : ℚ) (bandValues c n)))
  reduced.map (fun b => (replaceFirst b.1 ("_p" ++ toString percentile) "", b.2))

/-- The NDVI band added inside `create_greenest_pixel_composite`
(src/compositing.py lines 172-174): normalizedDifference of B8 and B4,
absent (masked) when either input band is. -/
def addNDVIBand (img : BandImage) : BandImage :=
  match List.lookup "B8" img, List.lookup "B4" img with
  | some nir, some red => img ++ [("NDVI", (nir - red) / (nir + red))]
  | _, _ => img

/-- The inverted NDMI band added inside `create_driest_pixel_composite`
(src/compositing.py lines 200-205). -/
def addNDMIInvBand (img : BandImage) : BandImage :=
  match List.lookup "B8" img, List.lookup "B11" img with
  | some nir, some swir => img ++ [("NDMI_inv", -((nir - swir) / (nir + swir)))]
  | _, _ => img

/-- `collection.qualityMosaic(q)` at one pixel: the scene whose quality band
value is largest there (the first such scene among ties or when later scenes
lack the band). -/
def bestBy (q : String) (col : List BandImage) : Option BandImage :=
  col.foldl
    (fun best img =>
      match best with
      | none => some img
      | some b =>
        match List.lookup q img, List.lookup q b with
        | some a, some bv => if bv < a then some img else some b
        | some _, none => some img
        | _, _ => some b)
    none

/-- `create_greenest_pixel_composite` (src/compositing.py lines 157-182):
add NDVI to every scene, then quality-mosaic on it. -/
def create_greenest_pixel_composite (collection : List BandImage) :
    List (String × Option ℚ) :=
  match bestBy "NDVI" (collection.map addNDVIBand) with
  | none => []
  | some img => img.map (fun b => (b.1, some b.2))

/-- `create_driest_pixel_composite` (src/compositing.py lines 185-213):
add inverted NDMI to every scene, then quality-mosaic on it. -/
def create_driest_pixel_composite (collection : List BandImage) :
    List (String × Option ℚ) :=
  match bestBy "NDMI_inv" (collection.map addNDMIInvBand) with
  | none => []
  | some img => img.map (fun b => (b.1, some b.2))

/-- `create_composite` (src/compositing.py lines 270-310): default the
method and percentile through Python `or` to the config values, then
dispatch by method name; any unrecognized name prints a warning and falls
through to the median composite. -/
def create_composite (collection : List BandImage) (method : Option String)
    (percentile : Option ℕ) (bands : Option (List String)) :
    List (String × Option ℚ) :=
  let m := pyOrStr method Config.COMPOSITE_METHOD
  let p := pyOrNat percentile Config.COMPOSITE_PERCENTILE
  if m = "median" then create_median_composite collection bands
  else if m = "mean" then create_mean_composite collection bands
  else if m = "percentile" then create_percentile_composite collection p bands
  else if m = "min" then create_min_composite collection bands
  else if m = "max" then create_max_composite collection bands
  else if m = "greenest" then create_greenest_pixel_composite collection
  else if m = "driest" then create_driest_pixel_composite collection
  else create_median_composite collection bands

/-- A concrete two-scene stack with bands B4 and B8. -/
def stackA : List BandImage :=
  [[("B4", 1), ("B8", 3)], [("B4", 5), ("B8", 7)]]

end Compositing

namespace Analysis

/-- The stages of the pipeline, in the order src/analysis.py and src/main.py
invoke them. -/
inductive Stage where
  | retrievalStage
  | cloudlessStage
  | maskingStage
  | compositingStage
  | indicesStage
  | bareSoilMaskStage
  | statisticsStage
  | histogramsStage
  | visualizationStage
deriving DecidableEq, Repr

/-- The value `analyze_fun` assembles when every stage succeeds; only the
scene count matters to the empty-stack claim. -/
structure AnalysisResult where
  imageCount : ℕ
deriving DecidableEq, Repr

/-- Control flow of `analyze_fun` (src/analysis.py lines 14-127) as a
function of the scene count returned by `get_sentinel2_collection`: the
result (an `AnalysisError` carrying the source's message when the count is
zero) paired with the list of stages the run invoked.  When the count is
zero the error is raised directly after the retrieval call, before the
s2cloudless retrieval, masking, compositing, index, statistics, histogram
and visualization stages. -/
def analyze_fun (s2Count : ℕ) : Except String AnalysisResult × List Stage :=
  if s2Count = 0 then
    (Except.error
      "Error obteniendo coleccion de imagenes s2, intenta cambiando el rango de tiempo",
      [Stage.retrievalStage])
  else
    (Except.ok { imageCount := s2Count },
      [Stage.retrievalStage, Stage.cloudlessStage, Stage.maskingStage,
       Stage.compositingStage, Stage.indicesStage, Stage.bareSoilMaskStage,
       Stage.statisticsStage, Stage.histogramsStage, Stage.visualizationStage])

/-- Control flow of `run_pipeline` (src/main.py lines 95-243) as a function
of the scene count: with zero scenes it prints suggestions and returns
`None` right after retrieval (its caller `main` then exits with status 1);
otherwise it runs masking through the bare-soil mask and, per its flags, the
statistics and histogram/visualization stages. -/
def run_pipeline (s2Count : ℕ) (calculate_stats generate_histograms : Bool) :
    Option AnalysisResult × List Stage :=
  if s2Count = 0 then (none, [Stage.retrievalStage])
  else
    let t := [Stage.retrievalStage, Stage.cloudlessStage, Stage.maskingStage,
      Stage.compositingStage, Stage.indicesStage, Stage.bareSoilMaskStage]
    let t := if calculate_stats then t ++ [Stage.statisticsStage] else t
    let t := if generate_histograms
      then t ++ [Stage.histogramsStage, Stage.visualizationStage] else t
    (some { imageCount := s2Count }, t)

end Analysis

/-!  Theorems settling the claims.  -/

/-- C9: for every input collection, probability collection and threshold,
`apply_comprehensive_cloud_mask` with `mask_shadows = True` returns exactly
its output with `mask_shadows = False`: the flag has no effect, and the
cloud-shadow projection of `mask_cloud_shadows` is never applied on this
path. -/
theorem mask_shadows_flag_has_no_effect (s2 : List Cloud.RawImage)
    (cl : List Cloud.ProbImage) (ct : Option ℚ) :
    Cloud.apply_comprehensive_cloud_mask s2 cl ct true
      = Cloud.apply_comprehensive_cloud_mask s2 cl ct false := rfl

/-- C10: `mask_s2_clouds_probability` with threshold 0 behaves exactly like
the call with no threshold — Python `or` treats 0 as falsy — so the mask
tests probability < 40 (the configured default), and a concrete pixel with
probability 20 stays valid instead of every pixel being masked. -/
theorem zero_threshold_uses_default_threshold (img : Cloud.Image) :
    Cloud.mask_s2_clouds_probability (some 0) img
        = Cloud.mask_s2_clouds_probability none img ∧
    Cloud.mask_s2_clouds_probability (some 0) img
        = Cloud.updateMask (fun p => decide (p.prob < 40)) img ∧
    (Cloud.mask_s2_clouds_probability (some 0)
        { idx := "a", pixels := [{ valid := true, prob := 20, scl := 5, nir := 0 }] }).pixels.map
        Cloud.Pixel.valid = [true] := by
  refine ⟨rfl, ?_, by decide⟩
  norm_num [Cloud.mask_s2_clouds_probability, pyOrQ, Config.CLOUD_PROBABILITY_THRESHOLD]

/-- C6: `create_bare_soil_mask` is true exactly where NDVI is strictly below
the NDVI threshold and BSI strictly above the BSI threshold; at either exact
threshold it is false. -/
theorem bare_soil_mask_strict_thresholds (ndvi bsi t1 t2 : ℚ) :
    (Soil.create_bare_soil_mask ndvi bsi t1 t2 = true ↔ ndvi < t1 ∧ t2 < bsi) ∧
    (ndvi = t1 → Soil.create_bare_soil_mask ndvi bsi t1 t2 = false) ∧
    (bsi = t2 → Soil.create_bare_soil_mask ndvi bsi t1 t2 = false) := by
  refine ⟨by simp [Soil.create_bare_soil_mask], ?_, ?_⟩
  · rintro rfl
    simp [Soil.create_bare_soil_mask]
  · rintro rfl
    simp [Soil.create_bare_soil_mask]

/-- Witness for C6: at NDVI exactly 3/10 against threshold 3/10 the mask is
false, by the theorem applied at concrete inputs. -/
theorem bare_soil_mask_strict_thresholds_witness :
    Soil.create_bare_soil_mask (3/10) 150 (3/10) 100 = false :=
  (bare_soil_mask_strict_thresholds (3/10) 150 (3/10) 100).2.1 rfl

/-- C5: with zero scenes after retrieval, `analyze_fun` raises its
`AnalysisError` directly after the retrieval stage and `run_pipeline`
returns `None` directly after the retrieval stage, so the compositing,
index, statistics and histogram stages are never invoked and no partial
result is produced. -/
theorem empty_stack_halts_pipeline (n : ℕ) (h : n = 0) (cs gh : Bool) :
    (Analysis.analyze_fun n).1 = Except.error
      "Error obteniendo coleccion de imagenes s2, intenta cambiando el rango de tiempo" ∧
    (Analysis.analyze_fun n).2 = [Analysis.Stage.retrievalStage] ∧
    (Analysis.run_pipeline n cs gh).1 = none ∧
    (Analysis.run_pipeline n cs gh).2 = [Analysis.Stage.retrievalStage] ∧
    Analysis.Stage.compositingStage ∉ (Analysis.analyze_fun n).2 ∧
    Analysis.Stage.indicesStage ∉ (Analysis.analyze_fun n).2 ∧
    Analysis.Stage.statisticsStage ∉ (Analysis.analyze_fun n).2 ∧
    Analysis.Stage.histogramsStage ∉ (Analysis.analyze_fun n).2 ∧
    Analysis.Stage.compositingStage ∉ (Analysis.run_pipeline n cs gh).2 ∧
    Analysis.Stage.statisticsStage ∉ (Analysis.run_pipeline n cs gh).2 ∧
    Analysis.Stage.histogramsStage ∉ (Analysis.run_pipeline n cs gh).2 := by
  subst h
  simp [Analysis.analyze_fun, Analysis.run_pipeline]

/-- Witness for C5: the theorem applied at zero scenes with both pipeline
flags on. -/
theorem empty_stack_halts_pipeline_witness :
    (Analysis.analyze_fun 0).1 = Except.error
      "Error obteniendo coleccion de imagenes s2, intenta cambiando el rango de tiempo" ∧
    (Analysis.analyze_fun 0).2 = [Analysis.Stage.retrievalStage] ∧
    (Analysis.run_pipeline 0 true true).1 = none ∧
    (Analysis.run_pipeline 0 true true).2 = [Analysis.Stage.retrievalStage] ∧
    Analysis.Stage.compositingStage ∉ (Analysis.analyze_fun 0).2 ∧
    Analysis.Stage.indicesStage ∉ (Analysis.analyze_fun 0).2 ∧
    Analysis.Stage.statisticsStage ∉ (Analysis.analyze_fun 0).2 ∧
    Analysis.Stage.histogramsStage ∉ (Analysis.analyze_fun 0).2 ∧
    Analysis.Stage.compositingStage ∉ (Analysis.run_pipeline 0 true true).2 ∧
    Analysis.Stage.statisticsStage ∉ (Analysis.run_pipeline 0 true true).2 ∧
    Analysis.Stage.histogramsStage ∉ (Analysis.run_pipeline 0 true true).2 :=
  empty_stack_halts_pipeline 0 rfl true true

/-- C2, failing input: in `shadowSceneA` the distance the source computes —
tan(zenith)·1000 m clipped to the 10 m search distance — is 2 m; pixel 5 is
not a cloud pixel, is dark, and lies 5 m from the cloud, outside the 2 m
clipped footprint, yet `mask_cloud_shadows` masks it (and the cloud pixel at
position 0), because the transform is invoked with the full search distance
and the computed clipped distance is dead code. -/
theorem cloud_shadow_projection_ignores_clipped_distance :
    Cloud.shadowDistance Cloud.shadowSceneA 10 = 2 ∧
    Cloud.shadowSceneACloud 5 = false ∧
    Cloud.inProjectedFootprint Cloud.shadowSceneACloud 2 5 = false ∧
    Cloud.inProjectedFootprint Cloud.shadowSceneACloud 10 5 = true ∧
    (Cloud.mask_cloud_shadows 40 (3/20) 10 Cloud.shadowSceneA).map Cloud.Pixel.valid
      = [false, true, true, true, true, false] := by
  refine ⟨?_, by decide, by decide, by decide, ?_⟩
  · norm_num [Cloud.shadowDistance, Cloud.shadowSceneA, min_def]
  · have h1500 : (3 / 20 : ℚ) * 10000 = 1500 := by norm_num
    simp only [Cloud.mask_cloud_shadows, h1500]
    decide

/-- C3, counterexample: the index "CI" is requested but its band is absent
from `statImageA`; `get_soil_statistics` omits its entry from the report
instead of producing an entry with null fields. -/
theorem statistics_absent_band_entry_omitted :
    "CI" ∈ ["NDSI", "BI", "CI"] ∧
    List.lookup "CI" (Soil.get_soil_statistics Soil.statImageA ["NDSI", "BI", "CI"]) = none := by
  refine ⟨by decide, by decide⟩

/-- C3 amended: each requested index's report entry depends only on that
index's own band — if the band is present the entry holds the reducer
outputs, all four of which are null when the region holds zero valid pixels
for it, and if the band is absent the entry is omitted (the failure is
caught and logged, no exception propagates); entries of the other requested
indices are unaffected. -/
theorem soil_statistics_entry_characterization (image : Soil.StatImage)
    (indices : List String) (name : String) :
    (List.lookup name (Soil.get_soil_statistics image indices)
      = if name ∈ indices then (List.lookup name image).map (fun v => Soil.regionStats v)
        else none) ∧
    Soil.regionStats [] = { mean := none, min := none, max := none, stdDev := none } := by
  refine ⟨?_, by decide⟩
  induction indices with
  | nil => simp [Soil.get_soil_statistics]
  | cons a as ih =>
    unfold Soil.get_soil_statistics at ih ⊢
    cases hla : List.lookup a image with
    | none =>
      by_cases hn : name = a
      · subst hn
        simp [List.filterMap_cons, hla, ih]
      · simp [List.filterMap_cons, hla, ih, hn]
    | some vals =>
      by_cases hn : name = a
      · subst hn
        simp [List.filterMap_cons, hla]
      · have hba : (name == a) = false := by simp [hn]
        simp [List.filterMap_cons, hla, List.lookup, hba, ih, hn]

/-- C7: dispatching `create_composite` with any method name outside the
seven recognized strategies produces exactly the median composite (after a
printed warning, no error). -/
theorem unknown_method_falls_back_to_median (collection : List Compositing.BandImage)
    (p : Option ℕ) (bands : Option (List String)) (m : String)
    (hm : m ∉ ["median", "mean", "percentile", "min", "max", "greenest", "driest"]) :
    Compositing.create_composite collection (some m) p bands
      = Compositing.create_composite collection (some "median") p bands := by
  simp only [List.mem_cons, List.not_mem_nil, or_false] at hm
  push_neg at hm
  obtain ⟨h1, h2, h3, h4, h5, h6, h7⟩ := hm
  by_cases he : m = ""
  · subst he
    simp [Compositing.create_composite, pyOrStr, Config.COMPOSITE_METHOD]
  · simp [Compositing.create_composite, pyOrStr, Config.COMPOSITE_METHOD,
      he, h1, h2, h3, h4, h5, h6, h7]

/-- Witness for C7: the unrecognized method name "foo" on a concrete
two-scene stack. -/
theorem unknown_method_falls_back_to_median_witness :
    ("foo" ∉ ["median", "mean", "percentile", "min", "max", "greenest", "driest"]) ∧
    Compositing.create_composite Compositing.stackA (some "foo") none none
      = Compositing.create_composite Compositing.stackA (some "median") none none :=
  ⟨by decide,
    unknown_method_falls_back_to_median Compositing.stackA none none "foo" (by decide)⟩

/-- Helper: resolving the cloud threshold through Python `or` twice — once
in `apply_comprehensive_cloud_mask` and once again inside
`mask_s2_clouds_probability` — equals resolving it once, because the
once-resolved value is never falsy. -/
theorem pyOrQ_resolve (ct : Option ℚ) :
    pyOrQ (some (pyOrQ ct Config.CLOUD_PROBABILITY_THRESHOLD))
        Config.CLOUD_PROBABILITY_THRESHOLD
      = pyOrQ ct Config.CLOUD_PROBABILITY_THRESHOLD := by
  cases ct with
  | none => norm_num [pyOrQ, Config.CLOUD_PROBABILITY_THRESHOLD]
  | some v =>
    by_cases hv : v = 0
    · subst hv
      norm_num [pyOrQ, Config.CLOUD_PROBABILITY_THRESHOLD]
    · simp [pyOrQ, hv]

/-- C1: on every scene of the probability-joined stack whose pixels are all
valid, `apply_comprehensive_cloud_mask` produces the validity mask that is,
pixel for pixel, the logical AND of the probability-threshold validity
(probability < resolved threshold) and the SCL validity (class not in
{3, 8, 9, 10}). -/
theorem comprehensive_mask_is_and_of_masks (s2 : List Cloud.RawImage)
    (cl : List Cloud.ProbImage) (ct : Option ℚ) (ms : Bool)
    (hvalid : ∀ img ∈ Cloud.add_cloud_probability s2 cl, ∀ p ∈ img.pixels, p.valid = true) :
    Cloud.apply_comprehensive_cloud_mask s2 cl ct ms
      = (Cloud.add_cloud_probability s2 cl).map (fun img =>
          { img with pixels := img.pixels.map (fun p =>
              { p with valid :=
                  decide (p.prob < pyOrQ ct Config.CLOUD_PROBABILITY_THRESHOLD)
                    && Cloud.sclClear p.scl }) }) := by
  unfold Cloud.apply_comprehensive_cloud_mask
  refine List.map_congr_left ?_
  intro img himg
  unfold Cloud.mask_s2_clouds_scl Cloud.mask_s2_clouds_probability Cloud.updateMask
  simp only [List.map_map]
  have hpx : ∀ p ∈ img.pixels, p.valid = true := hvalid img himg
  congr 1
  refine List.map_congr_left ?_
  intro p hp
  simp [Function.comp, hpx p hp, pyOrQ_resolve, Bool.and_assoc]

/-- Witness for C1: one joined scene with two all-valid pixels, the default
threshold and the shadow flag on. -/
theorem comprehensive_mask_is_and_of_masks_witness :
    (∀ img ∈ Cloud.add_cloud_probability [Cloud.rawImageA] [Cloud.probImageA],
        ∀ p ∈ img.pixels, p.valid = true) ∧
    Cloud.apply_comprehensive_cloud_mask [Cloud.rawImageA] [Cloud.probImageA] none true
      = (Cloud.add_cloud_probability [Cloud.rawImageA] [Cloud.probImageA]).map (fun img =>
          { img with pixels := img.pixels.map (fun p =>
              { p with valid :=
                  decide (p.prob < pyOrQ none Config.CLOUD_PROBABILITY_THRESHOLD)
                    && Cloud.sclClear p.scl }) }) :=
  ⟨by decide,
    comprehensive_mask_is_and_of_masks [Cloud.rawImageA] [Cloud.probImageA] none true
      (by decide)⟩

/-- Helper: a quotient whose positive denominator bounds the numerator in
absolute value lies in the unit interval. -/
theorem ratio_in_unit_interval (num den : ℚ) (hden : 0 < den)
    (h1 : -den ≤ num) (h2 : num ≤ den) : -1 ≤ num / den ∧ num / den ≤ 1 := by
  constructor
  · rw [le_div_iff₀ hden]
    linarith
  · rw [div_le_one hden]
    exact h2

/-- C4: at every pixel whose reflectance bands lie in the nominal 0–10000
range and whose denominators are non-zero, NDVI, NDSI, NDMI, BI, CI and SSI
lie in [-1, 1] and BSI lies in [0, 200]. -/
theorem soil_index_bounds (p : Soil.Reflectance) (hr : Soil.inReflectanceRange p)
    (h1 : p.swir1 + p.nir ≠ 0) (h2 : p.nir + p.red ≠ 0) (h3 : p.red + p.green ≠ 0)
    (h4 : p.red + p.green + p.blue ≠ 0)
    (h5 : p.swir1 + p.red + p.nir + p.blue ≠ 0)
    (h6 : p.swir2 + p.red + p.nir + p.blue ≠ 0) :
    (-1 ≤ Soil.calculate_ndvi p ∧ Soil.calculate_ndvi p ≤ 1) ∧
    (-1 ≤ Soil.calculate_ndsi p ∧ Soil.calculate_ndsi p ≤ 1) ∧
    (-1 ≤ Soil.calculate_ndmi p ∧ Soil.calculate_ndmi p ≤ 1) ∧
    (-1 ≤ Soil.calculate_bare_soil_index p ∧ Soil.calculate_bare_soil_index p ≤ 1) ∧
    (-1 ≤ Soil.calculate_color_index p ∧ Soil.calculate_color_index p ≤ 1) ∧
    (-1 ≤ Soil.calculate_saturation_index p ∧ Soil.calculate_saturation_index p ≤ 1) ∧
    (0 ≤ Soil.calculate_bsi p ∧ Soil.calculate_bsi p ≤ 200) := by
  obtain ⟨hb0, hb1, hg0, hg1, hr0, hr1, hn0, hn1, hs10, hs11, hs20, hs21⟩ := hr
  unfold Soil.calculate_ndvi Soil.calculate_ndsi Soil.calculate_ndmi
    Soil.calculate_bare_soil_index Soil.calculate_color_index
    Soil.calculate_saturation_index Soil.calculate_bsi Soil.normalizedDifference
  have hd1 : 0 < p.swir1 + p.nir := lt_of_le_of_ne (by linarith) (Ne.symm h1)
  have hd2 : 0 < p.nir + p.red := lt_of_le_of_ne (by linarith) (Ne.symm h2)
  have hd3 : 0 < p.red + p.green := lt_of_le_of_ne (by linarith) (Ne.symm h3)
  have hd4 : 0 < p.red + p.green + p.blue := lt_of_le_of_ne (by linarith) (Ne.symm h4)
  have hd5 : 0 < p.swir1 + p.red + p.nir + p.blue := lt_of_le_of_ne (by linarith) (Ne.symm h5)
  have hd6 : 0 < p.swir2 + p.red + p.nir + p.blue := lt_of_le_of_ne (by linarith) (Ne.symm h6)
  have hbsi := ratio_in_unit_interval (p.swir2 + p.red - p.nir - p.blue)
    (p.swir2 + p.red + p.nir + p.blue) hd6 (by linarith) (by linarith)
  refine ⟨ratio_in_unit_interval _ _ hd2 (by linarith) (by linarith),
    ratio_in_unit_interval _ _ hd1 (by linarith) (by linarith),
    ?_,
    ratio_in_unit_interval _ _ hd5 (by linarith) (by linarith),
    ratio_in_unit_interval _ _ hd3 (by linarith) (by linarith),
    ratio_in_unit_interval _ _ hd4 (by linarith) (by linarith),
    ?_⟩
  · have := ratio_in_unit_interval (p.nir - p.swir1) (p.nir + p.swir1)
      (by linarith) (by linarith) (by linarith)
    exact this
  · obtain ⟨hl, hu⟩ := hbsi
    constructor <;> linarith

/-- Witness for C4: the pixel with every band at 1000. -/
theorem soil_index_bounds_witness :
    (-1 ≤ Soil.calculate_ndvi Soil.reflA ∧ Soil.calculate_ndvi Soil.reflA ≤ 1) ∧
    (-1 ≤ Soil.calculate_ndsi Soil.reflA ∧ Soil.calculate_ndsi Soil.reflA ≤ 1) ∧
    (-1 ≤ Soil.calculate_ndmi Soil.reflA ∧ Soil.calculate_ndmi Soil.reflA ≤ 1) ∧
    (-1 ≤ Soil.calculate_bare_soil_index Soil.reflA
      ∧ Soil.calculate_bare_soil_index Soil.reflA ≤ 1) ∧
    (-1 ≤ Soil.calculate_color_index Soil.reflA
      ∧ Soil.calculate_color_index Soil.reflA ≤ 1) ∧
    (-1 ≤ Soil.calculate_saturation_index Soil.reflA
      ∧ Soil.calculate_saturation_index Soil.reflA ≤ 1) ∧
    (0 ≤ Soil.calculate_bsi Soil.reflA ∧ Soil.calculate_bsi Soil.reflA ≤ 200) :=
  soil_index_bounds Soil.reflA (by decide)
    (by norm_num [Soil.reflA]) (by norm_num [Soil.reflA]) (by norm_num [Soil.reflA])
    (by norm_num [Soil.reflA]) (by norm_num [Soil.reflA]) (by norm_num [Soil.reflA])

/-- Helper: the 50th percentile by linear interpolation on a sorted list is
its median — the interpolation lands on the middle element for an odd
count and halfway between the two middle elements for an even count. -/
theorem quantileSorted_50_eq_medianSorted (s : List ℚ) :
    Compositing.quantileSorted 50 s = Compositing.medianSorted s := by
  unfold Compositing.quantileSorted Compositing.medianSorted
  rcases eq_or_ne s.length 0 with h0 | h0
  · simp [h0]
  · simp only [if_neg h0]
    rcases Nat.even_or_odd s.length with he | ho
    · obtain ⟨m, hm⟩ := he
      have hmne : m ≠ 0 := by omega
      have hmod : ¬ s.length % 2 = 1 := by omega
      have hh : (50 : ℚ) * ((s.length : ℚ) - 1) / 100 = (m : ℚ) - 1/2 := by
        have hc : (s.length : ℚ) = 2 * (m : ℚ) := by
          rw [hm]; push_cast; ring
        rw [hc]; ring
      have hfl : ⌊(m : ℚ) - 1/2⌋ = (m : ℤ) - 1 := by
        rw [Int.floor_eq_iff]
        constructor
        · push_cast; linarith
        · push_cast; linarith
      rw [hh, hfl]
      have hnat : ((m : ℤ) - 1).toNat = m - 1 := by omega
      rw [hnat]
      have h1 : m - 1 + 1 = m := by omega
      have h2 : min m (s.length - 1) = m := by omega
      have h3 : s.length / 2 = m := by omega
      rw [h1, h2, h3]
      simp only [if_neg hmod]
      congr 1
      push_cast
      ring
    · obtain ⟨m, hm⟩ := ho
      have hmod : s.length % 2 = 1 := by omega
      have hh : (50 : ℚ) * ((s.length : ℚ) - 1) / 100 = (m : ℚ) := by
        have hc : (s.length : ℚ) = 2 * (m : ℚ) + 1 := by
          rw [hm]; push_cast; ring
        rw [hc]; ring
      have hfl : ⌊(m : ℚ)⌋ = (m : ℤ) := Int.floor_natCast m
      rw [hh, hfl]
      have hnat : ((m : ℤ)).toNat = m := by omega
      rw [hnat]
      have h3 : s.length / 2 = m := by omega
      rw [h3]
      simp only [if_pos hmod]
      congr 1
      push_cast
      ring

/-- Helper: the pattern `_p50` does not overlap itself, so appending it to a
list it does not start cannot create an occurrence at the front. -/
theorem startsWith_p50_append : ∀ (l : List Char), l ≠ [] →
    Compositing.startsWithChars ("_p50".data) l = false →
    Compositing.startsWithChars ("_p50".data) (l ++ "_p50".data) = false := by
  have hd : "_p50".data = ['_', 'p', '5', '0'] := rfl
  rw [hd]
  intro l hne h
  match l with
  | [c] =>
    simp only [Compositing.startsWithChars, List.cons_append, List.nil_append]
    have k1 : Compositing.startsWithChars ['p', '5', '0'] ['_', 'p', '5', '0'] = false := by
      decide
    simp [k1]
  | [c, c2] =>
    simp only [Compositing.startsWithChars, List.cons_append, List.nil_append]
    have k1 : Compositing.startsWithChars ['5', '0'] ['_', 'p', '5', '0'] = false := by decide
    simp [k1]
  | [c, c2, c3] =>
    simp only [Compositing.startsWithChars, List.cons_append, List.nil_append]
    have k1 : Compositing.startsWithChars ['0'] ['_', 'p', '5', '0'] = false := by decide
    simp [k1]
  | c :: c2 :: c3 :: c4 :: rest =>
    simp only [Compositing.startsWithChars, List.cons_append] at h ⊢
    simpa using h

/-- Helper: replacing the first `_p50` by nothing, in a list free of `_p50`
with `_p50` appended, strips exactly the appended suffix. -/
theorem replaceFirstChars_p50_append : ∀ (l : List Char),
    Compositing.containsChars ("_p50".data) l = false →
    Compositing.replaceFirstChars ("_p50".data) [] (l ++ "_p50".data) = l := by
  intro l h
  induction l with
  | nil => decide
  | cons c cs ih =>
    have h1 : Compositing.startsWithChars ("_p50".data) (c :: cs) = false := by
      unfold Compositing.containsChars at h
      exact (Bool.or_eq_false_iff.mp h).1
    have h2 : Compositing.containsChars ("_p50".data) cs = false := by
      unfold Compositing.containsChars at h
      exact (Bool.or_eq_false_iff.mp h).2
    have h3 := startsWith_p50_append (c :: cs) (by simp) h1
    simp only [List.cons_append] at h3 ⊢
    unfold Compositing.replaceFirstChars
    rw [if_neg (by simp [h3])]
    rw [ih h2]

/-- Helper: the rename of `create_percentile_composite` at percentile 50
maps each suffixed band name back to the original name, provided the name
itself is free of the substring `_p50`. -/
theorem replaceFirst_strip_p50 (n : String)
    (h : Compositing.containsChars ("_p50".data) n.data = false) :
    Compositing.replaceFirst (n ++ "_p" ++ toString (50 : ℕ)) ("_p" ++ toString (50 : ℕ)) ""
      = n := by
  have hts : ("_p" ++ toString (50 : ℕ)) = "_p50" := rfl
  rw [hts]
  unfold Compositing.replaceFirst
  have hdata : (n ++ "_p" ++ toString (50 : ℕ)).data = n.data ++ "_p50".data := by
    have hstep : (n ++ "_p" ++ toString (50 : ℕ)).data
        = (n.data ++ "_p".data) ++ (toString (50 : ℕ)).data := rfl
    rw [hstep, List.append_assoc]
    rfl
  have hrep : ("" : String).data = ([] : List Char) := rfl
  rw [hdata, hrep, replaceFirstChars_p50_append n.data h]

/-- C8: the percentile composite at percentile 50 equals the median
composite, band names included, for every stack whose band names are free
of the substring `_p50` (every Sentinel-2 band and index name is). -/
theorem percentile50_composite_eq_median_composite
    (collection : List Compositing.BandImage) (bands : Option (List String))
    (hn : ∀ name ∈ Compositing.bandNames (Compositing.selectBands bands collection),
        Compositing.containsChars ("_p50".data) name.data = false) :
    Compositing.create_percentile_composite collection 50 bands
      = Compositing.create_median_composite collection bands := by
  unfold Compositing.create_percentile_composite Compositing.create_median_composite
  simp only [List.map_map]
  refine List.map_congr_left ?_
  intro n hmem
  simp only [Function.comp]
  have h1 := replaceFirst_strip_p50 n (hn n hmem)
  rw [h1]
  have h2 : ((50 : ℕ) : ℚ) = (50 : ℚ) := by norm_num
  rw [h2, Compositing.eeQuantile, Compositing.eeMedian,
    quantileSorted_50_eq_medianSorted]

/-- Witness for C8: the concrete two-scene stack with bands B4 and B8 and no
band selection. -/
theorem percentile50_composite_eq_median_composite_witness :
    (∀ name ∈ Compositing.bandNames (Compositing.selectBands none Compositing.stackA),
        Compositing.containsChars ("_p50".data) name.data = false) ∧
    Compositing.create_percentile_composite Compositing.stackA 50 none
      = Compositing.create_median_composite Compositing.stackA none :=
  ⟨by decide,
    percentile50_composite_eq_median_composite Compositing.stackA none (by decide)⟩

end SentinelAPI
